import Mathlib

/-!
Shallow embedding of the Mini RCM Validation Engine claim-adjudication core
(`rule_engine.py`, `llm_provider.py`, the `validate_claims` endpoint of
`app.py`, and the metrics persistence contract of `db.py`), together with
theorems settling the specification claims about it.

Python values flowing through the engine (claim fields, rule values, JSON
data) are modelled by the inductive type `PyVal`; Python floats are modelled
as rationals, exceptions as `Except PyErr`, and `dict.get` by association-list
lookup.  String helpers are re-implemented structurally over `List Char` so
that every definition evaluates by kernel reduction.
-/

namespace RcmEngine

/-- A Python exception (only its presence matters to the control flow). -/
structure PyErr where
  msg : String
deriving Repr, DecidableEq

/-- Model of the Python values the engine manipulates: `None`, booleans,
numbers (ints and floats collapsed to `Rat`), strings, lists and
string-keyed dicts. -/
inductive PyVal where
  | none
  | bool (b : Bool)
  | num (q : Rat)
  | str (s : String)
  | list (xs : List PyVal)
  | dict (kvs : List (String × PyVal))
deriving Repr

/-- Rational addition through `mkRat` (definitionally evaluable). -/
def rAdd (a b : Rat) : Rat :=
  mkRat (a.num * (b.den : Int) + b.num * (a.den : Int)) (a.den * b.den)

/-- Rational subtraction through `mkRat`. -/
def rSub (a b : Rat) : Rat :=
  mkRat (a.num * (b.den : Int) - b.num * (a.den : Int)) (a.den * b.den)

mutual

/-- Python `==` on modelled values: numbers and booleans compare by value
(`True == 1`), lists elementwise, different kinds are unequal. -/
def pyEq : PyVal → PyVal → Bool
  | .none, .none => true
  | .bool a, .bool b => a == b
  | .bool a, .num b => (if a then (1 : Rat) else 0) == b
  | .num a, .bool b => a == (if b then (1 : Rat) else 0)
  | .num a, .num b => a == b
  | .str a, .str b => a == b
  | .list xs, .list ys => pyEqL xs ys
  | .dict xs, .dict ys => pyEqD xs ys
  | _, _ => false

def pyEqL : List PyVal → List PyVal → Bool
  | [], [] => true
  | a :: as, b :: bs => pyEq a b && pyEqL as bs
  | _, _ => false

def pyEqD : List (String × PyVal) → List (String × PyVal) → Bool
  | [], [] => true
  | (k, a) :: as, (l, b) :: bs => k == l && pyEq a b && pyEqD as bs
  | _, _ => false

end

mutual

/-- Structural (syntactic) equality on `PyVal`, used only to count and
compare violation records in theorem statements. -/
def pyBeq : PyVal → PyVal → Bool
  | .none, .none => true
  | .bool a, .bool b => a == b
  | .num a, .num b => a == b
  | .str a, .str b => a == b
  | .list xs, .list ys => pyBeqL xs ys
  | .dict xs, .dict ys => pyBeqD xs ys
  | _, _ => false

def pyBeqL : List PyVal → List PyVal → Bool
  | [], [] => true
  | a :: as, b :: bs => pyBeq a b && pyBeqL as bs
  | _, _ => false

def pyBeqD : List (String × PyVal) → List (String × PyVal) → Bool
  | [], [] => true
  | (k, a) :: as, (l, b) :: bs => k == l && pyBeq a b && pyBeqD as bs
  | _, _ => false

end

/-- Python truthiness: `None`, `False`, `0`, `""`, `[]`, and `{}` are falsy. -/
def pyTruthy : PyVal → Bool
  | .none => false
  | .bool b => b
  | .num q => q != 0
  | .str s => s != ""
  | .list xs => !xs.isEmpty
  | .dict kvs => !kvs.isEmpty

/-- Python `a or b`. -/
def pyOr (a b : PyVal) : PyVal :=
  if pyTruthy a then a else b

/-- `v is None`. -/
def PyVal.isNone : PyVal → Bool
  | .none => true
  | _ => false

/-! ### String helpers (structural over `List Char`) -/

/-- ASCII lower-casing of one character (Python `str.lower` on the
identifiers and conditions used by the engine is ASCII). -/
def charLower (c : Char) : Char :=
  if 'A' ≤ c ∧ c ≤ 'Z' then Char.ofNat (c.toNat + 32) else c

/-- Python `str.lower()`. -/
def strLower (s : String) : String :=
  ⟨s.data.map charLower⟩

/-- Whitespace trimming on both ends (Python `str.strip()`). -/
def trimChars (cs : List Char) : List Char :=
  ((cs.dropWhile Char.isWhitespace).reverse.dropWhile Char.isWhitespace).reverse

/-- Python `str.strip()`. -/
def strTrim (s : String) : String :=
  ⟨trimChars s.data⟩

/-- Split a character list at every separator character satisfying `p`
(keeping empty pieces), accumulator-style. -/
def splitChars (p : Char → Bool) : List Char → List Char → List (List Char)
  | [], acc => [acc.reverse]
  | c :: rest, acc =>
      if p c then acc.reverse :: splitChars p rest []
      else splitChars p rest (c :: acc)

/-- Python `str.split('-')`. -/
def strSplitOnChar (sep : Char) (s : String) : List String :=
  (splitChars (fun c => c == sep) s.data []).map String.mk

/-- `re.split('[,;|]', s)` followed by per-token `strip()` and dropping
empty tokens, exactly as the diagnosis parsing in `rule_engine.py` does. -/
def splitDiags (s : String) : List String :=
  ((splitChars (fun c => c == ',' || c == ';' || c == '|') s.data []).map
      (fun cs => (⟨trimChars cs⟩ : String))).filter (fun t => t ≠ "")

/-- `needle` occurs as a contiguous substring of `hay` (Python `in` on
strings). -/
def charsInfix (needle hay : List Char) : Bool :=
  match hay with
  | [] => needle.isEmpty
  | _ :: rest => needle.isPrefixOf hay || charsInfix needle rest

/-- Python `sub in s` for strings. -/
def strContainsSub (s sub : String) : Bool :=
  charsInfix sub.data s.data

/-- Python `s.startswith(p)`. -/
def strStartsWith (s p : String) : Bool :=
  p.data.isPrefixOf s.data

/-- Numeric value of a digit run. -/
def digitsVal (cs : List Char) : Nat :=
  cs.foldl (fun n c => 10 * n + (c.toNat - '0'.toNat)) 0

/-- Python `float(s)` on plain decimal literals: optional surrounding
whitespace, optional sign, digits with an optional fractional part
(`"1."`, `".5"` included).  Exponent and `inf`/`nan` forms, which the
engine never feeds it, are not modelled and yield `Option.none`
(a `ValueError` in Python). -/
def strToFloat? (s : String) : Option Rat :=
  let cs := trimChars s.data
  let (sign, cs) : Int × List Char :=
    match cs with
    | '+' :: r => (1, r)
    | '-' :: r => (-1, r)
    | r => (1, r)
  let ip := cs.takeWhile Char.isDigit
  let rest := cs.dropWhile Char.isDigit
  match rest with
  | [] =>
      if ip.isEmpty then Option.none
      else Option.some (mkRat (sign * (digitsVal ip : Int)) 1)
  | '.' :: r =>
      let fp := r.takeWhile Char.isDigit
      let rest2 := r.dropWhile Char.isDigit
      if rest2.isEmpty ∧ ¬(ip.isEmpty ∧ fp.isEmpty) then
        Option.some (mkRat
          (sign * ((digitsVal ip : Int) * ((10 : Int) ^ fp.length) + (digitsVal fp : Int)))
          ((10 : Nat) ^ fp.length))
      else Option.none
  | _ => Option.none

/-- Render a rational the way Python prints the floats the engine produces:
integral values get a trailing `.0`, decimal fractions are printed exactly.
(Only used inside interpolated explanation texts; no claim depends on the
precise digits.) -/
def ratToString (q : Rat) : String :=
  let sign := if q.num < 0 then "-" else ""
  let n := q.num.natAbs
  let d := q.den
  match (List.range 13).find? (fun k => (10 : Nat) ^ k % d == 0) with
  | Option.some 0 => sign ++ toString (n / d) ++ ".0"
  | Option.some k =>
      let scaled := n * ((10 : Nat) ^ k / d)
      let digs := toString scaled
      let digs := if digs.length < k + 1 then
          String.mk (List.replicate (k + 1 - digs.length) '0') ++ digs
        else digs
      let cut := digs.data.length - k
      sign ++ String.mk (digs.data.take cut) ++ "." ++ String.mk (digs.data.drop cut)
  | Option.none => sign ++ toString n ++ "/" ++ toString d

/-- A single-quote character, for Python `repr` of strings. -/
def squote : String := String.mk [Char.ofNat 39]

mutual

/-- Python `repr` (as used inside `str` of containers); exact quoting is
irrelevant to every claim. -/
def pyRepr : PyVal → String
  | .none => "None"
  | .bool b => if b then "True" else "False"
  | .num q => ratToString q
  | .str s => squote ++ s ++ squote
  | .list xs => "[" ++ pyReprL xs ++ "]"
  | .dict kvs => "\x7b" ++ pyReprD kvs ++ "\x7d"

def pyReprL : List PyVal → String
  | [] => ""
  | [x] => pyRepr x
  | x :: rest => pyRepr x ++ ", " ++ pyReprL rest

def pyReprD : List (String × PyVal) → String
  | [] => ""
  | [(k, v)] => squote ++ k ++ squote ++ ": " ++ pyRepr v
  | (k, v) :: rest => squote ++ k ++ squote ++ ": " ++ pyRepr v ++ ", " ++ pyReprD rest

end

/-- Python `str(v)`. -/
def pyToStr : PyVal → String
  | .str s => s
  | v => pyRepr v

/-- Python `float(v)`: numbers pass through, booleans coerce, strings are
parsed, everything else raises. -/
def pyFloatE : PyVal → Except PyErr Rat
  | .num q => .ok q
  | .bool b => .ok (if b then 1 else 0)
  | .str s =>
      match strToFloat? s with
      | Option.some q => .ok q
      | Option.none => .error ⟨"ValueError"⟩
  | _ => .error ⟨"TypeError"⟩

/-- `try: float(v) except: d` (the `_safe_get_float` pattern). -/
def floatOrElse (v : PyVal) (d : Rat) : Rat :=
  match pyFloatE v with
  | .ok q => q
  | .error _ => d

/-- `try: float(v or 0) except: 0`, the recurring paid-amount coercion. -/
def orZeroFloat (v : PyVal) : Rat :=
  floatOrElse (pyOr v (.num 0)) 0

/-- Python `x in container`: elementwise `==` on lists, substring test on
strings (`TypeError` for a non-string left operand), key membership on
dicts, `TypeError` on every non-container. -/
def pyInE (x container : PyVal) : Except PyErr Bool :=
  match container with
  | .list ys => .ok (ys.any (fun y => pyEq x y))
  | .str s =>
      match x with
      | .str t => .ok (strContainsSub s t)
      | _ => .error ⟨"TypeError"⟩
  | .dict kvs =>
      match x with
      | .str t => .ok (kvs.any (fun kv => kv.1 == t))
      | .list _ => .error ⟨"unhashable"⟩
      | .dict _ => .error ⟨"unhashable"⟩
      | _ => .ok false
  | _ => .error ⟨"TypeError"⟩

end RcmEngine

namespace RcmEngine

/-! ### A model of `json.loads`

Recursive-descent parser producing `PyVal`, with fuel for termination.
`\u` string escapes and exponent-form numbers, which never occur in the
engine's configuration payloads, are not modelled (they parse to
`Option.none`, i.e. a raised `JSONDecodeError`). -/

/-- Drop leading JSON whitespace. -/
def skipWs : List Char → List Char
  | [] => []
  | c :: rest => if c.isWhitespace then skipWs rest else c :: rest

/-- Parse the remainder of a JSON string literal (after the opening quote). -/
def parseJString (acc : List Char) : List Char → Option (String × List Char)
  | [] => Option.none
  | '"' :: rest => Option.some (⟨acc.reverse⟩, rest)
  | '\\' :: e :: rest =>
      if e = '"' ∨ e = '\\' ∨ e = '/' then parseJString (e :: acc) rest
      else if e = 'n' then parseJString ('\n' :: acc) rest
      else if e = 't' then parseJString ('\t' :: acc) rest
      else if e = 'r' then parseJString ('\r' :: acc) rest
      else Option.none
  | c :: rest => parseJString (c :: acc) rest

/-- Parse a JSON number (integer or decimal-fraction form). -/
def parseJNumber (cs : List Char) : Option (Rat × List Char) :=
  let (sign, cs) : Int × List Char :=
    match cs with
    | '-' :: r => (-1, r)
    | r => (1, r)
  let ip := cs.takeWhile Char.isDigit
  let rest := cs.dropWhile Char.isDigit
  if ip.isEmpty then Option.none
  else
    match rest with
    | '.' :: r =>
        let fp := r.takeWhile Char.isDigit
        let rest2 := r.dropWhile Char.isDigit
        if fp.isEmpty then Option.none
        else Option.some (mkRat
          (sign * ((digitsVal ip : Int) * ((10 : Int) ^ fp.length) + (digitsVal fp : Int)))
          ((10 : Nat) ^ fp.length), rest2)
    | _ => Option.some (mkRat (sign * (digitsVal ip : Int)) 1, rest)

mutual

/-- Parse one JSON value. -/
def jsonVal : Nat → List Char → Option (PyVal × List Char)
  | 0, _ => Option.none
  | fuel + 1, cs =>
    match skipWs cs with
    | 'n' :: 'u' :: 'l' :: 'l' :: rest => Option.some (.none, rest)
    | 't' :: 'r' :: 'u' :: 'e' :: rest => Option.some (.bool true, rest)
    | 'f' :: 'a' :: 'l' :: 's' :: 'e' :: rest => Option.some (.bool false, rest)
    | '"' :: rest => (parseJString [] rest).map (fun p => (.str p.1, p.2))
    | '[' :: rest =>
        (match skipWs rest with
         | ']' :: rest2 => Option.some (.list [], rest2)
         | rest2 => jsonArr fuel rest2)
    | c :: rest =>
        if c = Char.ofNat 123 then
          (match skipWs rest with
           | c2 :: rest2 =>
              if c2 = Char.ofNat 125 then Option.some (.dict [], rest2)
              else jsonObj fuel (c2 :: rest2)
           | [] => Option.none)
        else (parseJNumber (c :: rest)).map (fun p => (.num p.1, p.2))
    | [] => Option.none

/-- Parse one-or-more comma-separated values up to `]`. -/
def jsonArr : Nat → List Char → Option (PyVal × List Char)
  | 0, _ => Option.none
  | fuel + 1, cs =>
    match jsonVal fuel cs with
    | Option.none => Option.none
    | Option.some (v, rest) =>
      match skipWs rest with
      | ',' :: rest2 =>
          (match jsonArr fuel rest2 with
           | Option.some (.list vs, rest3) => Option.some (.list (v :: vs), rest3)
           | _ => Option.none)
      | ']' :: rest2 => Option.some (.list [v], rest2)
      | _ => Option.none

/-- Parse one-or-more `"key": value` pairs up to the closing brace. -/
def jsonObj : Nat → List Char → Option (PyVal × List Char)
  | 0, _ => Option.none
  | fuel + 1, cs =>
    match skipWs cs with
    | '"' :: rest =>
      (match parseJString [] rest with
       | Option.none => Option.none
       | Option.some (k, rest2) =>
         match skipWs rest2 with
         | ':' :: rest3 =>
           (match jsonVal fuel rest3 with
            | Option.none => Option.none
            | Option.some (v, rest4) =>
              match skipWs rest4 with
              | ',' :: rest5 =>
                  (match jsonObj fuel rest5 with
                   | Option.some (.dict kvs, rest6) => Option.some (.dict ((k, v) :: kvs), rest6)
                   | _ => Option.none)
              | c :: rest5 =>
                  if c = Char.ofNat 125 then Option.some (.dict [(k, v)], rest5)
                  else Option.none
              | [] => Option.none)
         | _ => Option.none)
    | _ => Option.none

end

/-- `json.loads`: parse a full document, rejecting trailing garbage;
`Option.none` models the raised `JSONDecodeError`. -/
def jsonLoads (s : String) : Option PyVal :=
  match jsonVal (s.length + 2) s.data with
  | Option.some (v, rest) => if (skipWs rest).isEmpty then Option.some v else Option.none
  | Option.none => Option.none

/-- `d.get(k)` on a modelled dict body (missing key gives `None`). -/
def dictGet (kvs : List (String × PyVal)) (k : String) : PyVal :=
  (kvs.lookup k).getD .none

/-- `k in d` on a modelled dict body. -/
def dictHasKey (kvs : List (String × PyVal)) (k : String) : Bool :=
  (kvs.lookup k).isSome

/-! ### Rules, claims and `apply_rule` (`rule_engine.py`) -/

/-- A tenant rule as stored and fetched: `field` and `condition` are TEXT
columns of the `rules` table; `value` may be any decoded value. -/
structure Rule where
  rule_id : String
  field : String
  condition : String
  value : PyVal
  error_type : PyVal
  explanation : PyVal
  recommended_action : PyVal

/-- A claim dictionary: string keys to Python values; `claim.get(f)` is
association-list lookup defaulting to `None`. -/
abbrev Claim := List (String × PyVal)

/-- `claim.get(f)`. -/
def claimGet (c : Claim) (f : String) : PyVal :=
  (c.lookup f).getD .none

/-- `claim.get(f, d)`. -/
def claimGetD (c : Claim) (f : String) (d : PyVal) : PyVal :=
  (c.lookup f).getD d

/-- `apply_rule(rule, claim)` with all of its exception handlers compiled
in: `True` when the rule is violated.  A missing or `None` claim field is
always a violation; coercion failure on `less_than`/`greater_than` and
`not_in` is a violation (fail-closed) while on `in` it is not (fail-open);
an unrecognized condition is never a violation. -/
def applyRule (rule : Rule) (claim : Claim) : Bool :=
  let claimValue := claimGet claim rule.field
  if claimValue.isNone then true
  else if rule.condition = "equals" then !pyEq claimValue rule.value
  else if rule.condition = "not_equals" then pyEq claimValue rule.value
  else if rule.condition = "less_than" then
    (match pyFloatE claimValue with
     | .ok a =>
        (match pyFloatE rule.value with
         | .ok b => decide (a < b)
         | .error _ => true)
     | .error _ => true)
  else if rule.condition = "greater_than" then
    (match pyFloatE claimValue with
     | .ok a =>
        (match pyFloatE rule.value with
         | .ok b => decide (b < a)
         | .error _ => true)
     | .error _ => true)
  else if rule.condition = "in" then
    (match pyInE claimValue rule.value with
     | .ok b => b
     | .error _ => false)
  else if rule.condition = "not_in" then
    (match pyInE claimValue rule.value with
     | .ok b => !b
     | .error _ => true)
  else if rule.condition = "contains" then
    strContainsSub (pyToStr claimValue) (pyToStr rule.value)
  else false

/-- `apply_rule` translated into the exception monad with the source's
`try`/`except` structure intact: the per-operator handlers for
`less_than`/`greater_than`/`in`/`not_in` and the outer handler that turns
any other comparison failure into a violation. -/
def applyRuleE (rule : Rule) (claim : Claim) : Except PyErr Bool :=
  let claimValue := claimGet claim rule.field
  if claimValue.isNone then pure true
  else
    tryCatch
      (if rule.condition = "equals" then pure (!pyEq claimValue rule.value)
       else if rule.condition = "not_equals" then pure (pyEq claimValue rule.value)
       else if rule.condition = "less_than" then
         tryCatch
           (do
             let a ← pyFloatE claimValue
             let b ← pyFloatE rule.value
             pure (decide (a < b)))
           (fun _ => pure true)
       else if rule.condition = "greater_than" then
         tryCatch
           (do
             let a ← pyFloatE claimValue
             let b ← pyFloatE rule.value
             pure (decide (b < a)))
           (fun _ => pure true)
       else if rule.condition = "in" then
         tryCatch (pyInE claimValue rule.value) (fun _ => pure false)
       else if rule.condition = "not_in" then
         tryCatch
           (do
             let b ← pyInE claimValue rule.value
             pure (!b))
           (fun _ => pure true)
       else if rule.condition = "contains" then
         pure (strContainsSub (pyToStr claimValue) (pyToStr rule.value))
       else pure false)
      (fun _ => pure true)

/-- A violation record `{error_type, explanation, recommended_action}`. -/
structure Violation where
  error_type : PyVal
  explanation : PyVal
  recommended_action : PyVal

/-- Structural equality of violation records. -/
def violBeq (v w : Violation) : Bool :=
  pyBeq v.error_type w.error_type && pyBeq v.explanation w.explanation &&
    pyBeq v.recommended_action w.recommended_action

/-- The violation reported for a violated tenant rule. -/
def mkViolation (rule : Rule) : Violation :=
  ⟨rule.error_type, rule.explanation, rule.recommended_action⟩

/-- `evaluate_static_rules`: apply every stored rule for the tenant to the
claim, collecting a violation record per violated rule, in rule order. -/
def evaluateStaticRules (rules : List Rule) (claim : Claim) : List Violation :=
  (rules.filter (fun r => applyRule r claim)).map mkViolation

end RcmEngine

namespace RcmEngine

/-! ### Domain rule tables (`rule_engine.py` constants) -/

/-- Facility registry: facility id to facility type. -/
def FACILITY_TYPES : List (String × String) :=
  [("0DBYE6KP", "DIALYSIS_CENTER"), ("2XKSZK4T", "MATERNITY_HOSPITAL"),
   ("7R1VMIGX", "CARDIOLOGY_CENTER"), ("96GUDLMT", "GENERAL_HOSPITAL"),
   ("9V7HTI6E", "GENERAL_HOSPITAL"), ("EGVP0QAQ", "GENERAL_HOSPITAL"),
   ("EPRETQTL", "DIALYSIS_CENTER"), ("FLXFBIMD", "GENERAL_HOSPITAL"),
   ("GLCTDQAJ", "MATERNITY_HOSPITAL"), ("GY0GUI8G", "GENERAL_HOSPITAL"),
   ("I2MFYKYM", "GENERAL_HOSPITAL"), ("LB7I54Z7", "CARDIOLOGY_CENTER"),
   ("M1XCZVQD", "CARDIOLOGY_CENTER"), ("M7DJYNG5", "GENERAL_HOSPITAL"),
   ("MT5W4HIR", "MATERNITY_HOSPITAL"), ("OCQUMGDW", "GENERAL_HOSPITAL"),
   ("OIAP2DTP", "CARDIOLOGY_CENTER"), ("Q3G9N34N", "GENERAL_HOSPITAL"),
   ("Q8OZ5Z7C", "GENERAL_HOSPITAL"), ("RNPGDXCU", "MATERNITY_HOSPITAL"),
   ("S174K5QK", "GENERAL_HOSPITAL"), ("SKH7D31V", "CARDIOLOGY_CENTER"),
   ("SZC62NTW", "GENERAL_HOSPITAL"), ("VV1GS6P0", "MATERNITY_HOSPITAL"),
   ("ZDE6M6NJ", "GENERAL_HOSPITAL")]

/-- Inpatient-only services. -/
def INPATIENT_ONLY : List String := ["SRV1001", "SRV1002", "SRV1003"]

/-- Outpatient-only services. -/
def OUTPATIENT_ONLY : List String :=
  ["SRV2001", "SRV2002", "SRV2003", "SRV2004", "SRV2006", "SRV2007",
   "SRV2008", "SRV2010", "SRV2011"]

/-- Facility type to allowed service set. -/
def FACILITY_SERVICE_MAP : List (String × List String) :=
  [("MATERNITY_HOSPITAL", ["SRV2008"]),
   ("DIALYSIS_CENTER", ["SRV1003", "SRV2010"]),
   ("CARDIOLOGY_CENTER", ["SRV2001", "SRV2011"]),
   ("GENERAL_HOSPITAL",
    ["SRV1001", "SRV1002", "SRV1003", "SRV2001", "SRV2002", "SRV2003",
     "SRV2004", "SRV2006", "SRV2007", "SRV2008", "SRV2010", "SRV2011"])]

/-- Diagnosis code to required companion service. -/
def DIAG_REQUIRED_SERVICE : List (String × String) :=
  [("E11.9", "SRV2007"), ("J45.909", "SRV2006"), ("R07.9", "SRV2001"),
   ("Z34.0", "SRV2008"), ("N39.0", "SRV2005")]

/-- Mutually exclusive diagnosis pairs. -/
def MUTUALLY_EXCLUSIVE_PAIRS : List (String × String) :=
  [("R73.03", "E11.9"), ("E66.9", "E66.3"), ("R51", "G43.9")]

/-- Services requiring prior approval. -/
def SERVICES_REQUIRING_APPROVAL : List String := ["SRV1001", "SRV1002", "SRV2008"]

/-- Diagnosis codes requiring approval. -/
def DIAG_REQUIRING_APPROVAL : List String := ["E11.9", "R07.9", "Z34.0"]

/-- Default paid-amount approval threshold. -/
def PAID_AMOUNT_APPROVAL_THRESHOLD : Rat := 250

/-! ### Claims as `master_table` rows -/

/-- One fetched claim row (`dict(row)` of the `master_table` schema in
`db.py`): TEXT columns are `Option String`, the REAL `paid_amount_aed`
is `Option Rat`. -/
structure ClaimRow where
  id : Int
  tenant_id : String
  claim_id : Option String
  encounter_type : Option String
  service_date : Option String
  national_id : Option String
  member_id : Option String
  facility_id : Option String
  unique_id : Option String
  diagnosis_codes : Option String
  service_code : Option String
  paid_amount_aed : Option Rat
  approval_number : Option String
  status : Option String
  error_type : Option String
  error_explanation : Option String
  recommended_action : Option String
deriving Repr, DecidableEq

/-- A TEXT column value as a Python value. -/
def optStr : Option String → PyVal
  | Option.some s => .str s
  | Option.none => .none

/-- A REAL column value as a Python value. -/
def optNum : Option Rat → PyVal
  | Option.some q => .num q
  | Option.none => .none

/-- The row as the dictionary `dict(row)` handed to `apply_rule`. -/
def rowToClaim (r : ClaimRow) : Claim :=
  [("id", .num (r.id : Rat)), ("tenant_id", .str r.tenant_id),
   ("claim_id", optStr r.claim_id), ("encounter_type", optStr r.encounter_type),
   ("service_date", optStr r.service_date), ("national_id", optStr r.national_id),
   ("member_id", optStr r.member_id), ("facility_id", optStr r.facility_id),
   ("unique_id", optStr r.unique_id), ("diagnosis_codes", optStr r.diagnosis_codes),
   ("service_code", optStr r.service_code),
   ("paid_amount_aed", optNum r.paid_amount_aed),
   ("approval_number", optStr r.approval_number), ("status", optStr r.status),
   ("error_type", optStr r.error_type),
   ("error_explanation", optStr r.error_explanation),
   ("recommended_action", optStr r.recommended_action)]

/-! ### The full deterministic spec checks (`evaluate_static_rules_full`) -/

/-- Modelled from the spec: `GetTenantConfig(tenant, key) -> string|absent`
(§6).  The accessor `get_tenant_config` that `rule_engine.py` imports from
`db` is not present under `src/`; per the spec it supplies the tenant-scoped
configuration value for a key, or is absent. -/
def TenantConfig := String → Option String

/-- Build a three-string violation record. -/
def vio (t e a : String) : Violation :=
  ⟨.str t, .str e, .str a⟩

/-- `not claim.get('approval_number')`: no approval number present. -/
def noApproval (row : ClaimRow) : Bool :=
  !pyTruthy (optStr row.approval_number)

/-- One `^[A-Z0-9]+$` segment (the `ID_SEGMENT_RE` pattern; the Python
`$`-before-trailing-newline corner is not modelled, no identifier the
engine checks contains a newline). -/
def isIdSegment (s : String) : Bool :=
  !s.isEmpty && s.data.all (fun c => c.isUpper || c.isDigit)

/-- `v and not ID_SEGMENT_RE.match(str(v))` for a TEXT column value. -/
def badIdCol (v : Option String) : Bool :=
  match v with
  | Option.some s => s != "" && !isIdSegment s
  | Option.none => false

/-- `validate_id_format`: first failing check wins, returning
`(ok, message)`. -/
def validateIdFormat (nationalId memberId facilityId uniqueId : Option String) :
    Bool × String :=
  if badIdCol nationalId ∨ badIdCol memberId ∨ badIdCol facilityId then
    (false, "IDs must be uppercase alphanumeric")
  else
    match uniqueId with
    | Option.some u =>
        if u != "" then
          let parts := strSplitOnChar '-' u
          if parts.length ≠ 3 ∨ ¬ (parts.all isIdSegment = true) then
            (false, "unique_id must be 3 segments of uppercase alphanumeric separated by hyphens")
          else (true, "")
        else (true, "")
    | Option.none => (true, "")

/-- Effective paid-amount threshold: the tenant override when present,
non-empty and parsable as a float, else the default constant. -/
def effectiveThreshold (cfg : TenantConfig) : Rat :=
  match cfg "paid_amount_approval_threshold" with
  | Option.some s =>
      if s ≠ "" then
        match strToFloat? s with
        | Option.some t => t
        | Option.none => PAID_AMOUNT_APPROVAL_THRESHOLD
      else PAID_AMOUNT_APPROVAL_THRESHOLD
  | Option.none => PAID_AMOUNT_APPROVAL_THRESHOLD

/-- The violation for a paid amount above a per-service cap. -/
def capViolation (paid capVal : Rat) (svc : String) : Violation :=
  vio "Technical error"
    ("Paid amount AED " ++ ratToString paid ++ " exceeds cap " ++
      ratToString capVal ++ " for service " ++ svc)
    "Verify service-specific cap or obtain approval"

/-- Scan the parsed cap entries: the first entry whose `service` matches
stops the scan (`break`); a malformed entry (non-dict, or an unparsable
`cap`) is skipped (`continue`). -/
def capsScan (svc : String) (paid : Rat) (noAppr : Bool) :
    List PyVal → List Violation
  | [] => []
  | entry :: rest =>
    match entry with
    | .dict kvs =>
        if pyToStr (pyOr (dictGet kvs "service") (.str "")) = svc then
          (match pyFloatE (pyOr (dictGet kvs "cap") (.num 0)) with
           | .ok capVal =>
              if 0 < capVal ∧ capVal < paid ∧ noAppr then
                [capViolation paid capVal svc]
              else []
           | .error _ => capsScan svc paid noAppr rest)
        else capsScan svc paid noAppr rest
    | _ => capsScan svc paid noAppr rest

/-- The per-service cap check: configuration absent, empty, unparsable as
JSON, or not a JSON array contributes nothing (a non-array document either
iterates to per-entry failures or raises into the enclosing handler —
in every case no violation is produced). -/
def capsViolations (cfg : TenantConfig) (service : String) (paid : Rat)
    (noAppr : Bool) : List Violation :=
  match cfg "paid_amount_caps" with
  | Option.some s =>
      if s ≠ "" then
        match jsonLoads s with
        | Option.some (.list entries) => capsScan (strTrim service) paid noAppr entries
        | _ => []
      else []
  | Option.none => []

/-- The single Medical violation recorded for a co-occurring mutually
exclusive diagnosis pair. -/
def mutexViolation (a b : String) : Violation :=
  vio "Medical error" ("Diagnoses " ++ a ++ " and " ++ b ++ " are mutually exclusive")
    "Review clinical documentation; remove incorrect diagnosis"

/-- `evaluate_static_rules_full(tenant_id, claim)`: the full deterministic
check suite, in source order — encounter-type compatibility, facility
compatibility, diagnosis-required services, mutually exclusive diagnoses,
prior-approval requirements, paid-amount threshold, per-service caps, and
identifier formats. -/
def evaluateStaticRulesFull (cfg : TenantConfig) (row : ClaimRow) : List Violation :=
  let service := strTrim (row.service_code.getD "")
  let facilityId := strTrim (row.facility_id.getD "")
  let encounter := strTrim (row.encounter_type.getD "")
  let diags := splitDiags (row.diagnosis_codes.getD "")
  let vioA1 :=
    if INPATIENT_ONLY.contains service ∧ strLower encounter ≠ "inpatient" then
      [vio "Technical error"
        ("Service " ++ service ++ " is inpatient-only but encounter is " ++ encounter)
        "Submit as inpatient encounter or change service code"]
    else []
  let vioA2 :=
    if OUTPATIENT_ONLY.contains service ∧ strLower encounter = "inpatient" then
      [vio "Technical error"
        ("Service " ++ service ++ " is outpatient-only but encounter is inpatient")
        "Submit as outpatient encounter or change service code"]
    else []
  let vioB :=
    match FACILITY_TYPES.lookup facilityId with
    | Option.some facType =>
        let allowed := (FACILITY_SERVICE_MAP.lookup facType).getD []
        if service ≠ "" ∧ ¬ (allowed.contains service = true) then
          [vio "Technical error"
            ("Service " ++ service ++ " is not allowed at facility type " ++ facType)
            ("Perform service at appropriate facility or update facility type to support "
              ++ service)]
        else []
    | Option.none =>
        if facilityId ≠ "" then
          [vio "Technical error" ("Unknown facility id " ++ facilityId)
            "Verify facility registry and correct facility_id"]
        else []
  let vioC :=
    (DIAG_REQUIRED_SERVICE.map (fun p =>
      if diags.contains p.1 ∧ service ≠ p.2 then
        [vio "Medical error" ("Diagnosis " ++ p.1 ++ " requires service " ++ p.2)
          ("Ensure service " ++ p.2 ++ " is billed when diagnosis " ++ p.1 ++
            " is present")]
      else [])).flatten
  let vioD :=
    (MUTUALLY_EXCLUSIVE_PAIRS.map (fun p =>
      if diags.contains p.1 ∧ diags.contains p.2 then [mutexViolation p.1 p.2]
      else [])).flatten
  let vioE1 :=
    if SERVICES_REQUIRING_APPROVAL.contains service ∧ noApproval row then
      [vio "Technical error" ("Service " ++ service ++ " requires prior approval")
        "Obtain prior approval before processing"]
    else []
  let vioE2 :=
    (diags.map (fun d =>
      if DIAG_REQUIRING_APPROVAL.contains d ∧ noApproval row then
        [vio "Technical error" ("Diagnosis " ++ d ++ " requires prior approval")
          "Obtain prior authorization before processing"]
      else [])).flatten
  let paid := row.paid_amount_aed.getD 0
  let threshold := effectiveThreshold cfg
  let vioF :=
    if threshold < paid ∧ noApproval row then
      [vio "Technical error"
        ("Paid amount AED " ++ ratToString paid ++ " exceeds threshold " ++
          ratToString threshold)
        "Obtain approval for high-value claims"]
    else []
  let vioG := capsViolations cfg service paid (noApproval row)
  let idCheck :=
    validateIdFormat row.national_id row.member_id row.facility_id row.unique_id
  let vioH :=
    if idCheck.1 then []
    else [vio "Technical error" idCheck.2
      "Correct ID formats to uppercase alphanumeric and unique_id segments"]
  vioA1 ++ vioA2 ++ vioB ++ vioC ++ vioD ++ vioE1 ++ vioE2 ++ vioF ++ vioG ++ vioH

end RcmEngine

namespace RcmEngine

/-! ### `evaluate_llm_rules` (`rule_engine.py`) with no OpenAI configured

With no `OPENAI_API_KEY`, `call_openai_chat` returns `None` and the
deterministic heuristic block runs; its extractions are total on
`master_table` rows, so only the checks and the duplicate-explanation
filter remain. -/

/-- One step of the duplicate-explanation filter: skip a violation whose
explanation is already in the `seen` set, else keep it and record it. -/
def dedupStep (ac : List Violation × List PyVal) (v : Violation) :
    List Violation × List PyVal :=
  if ac.2.any (fun e => pyEq e v.explanation) then ac
  else (ac.1 ++ [v], ac.2 ++ [v.explanation])

/-- Keep the first violation per distinct explanation (the `seen` set). -/
def dedupByExplanation (vs : List Violation) : List Violation :=
  (vs.foldl dedupStep ([], [])).1

/-- The heuristic suggestion for a mutually exclusive pair. -/
def rareCoexistSuggestion (a b : String) : Violation :=
  vio "Medical error"
    ("Diagnoses " ++ a ++ " and " ++ b ++ " rarely co-exist; clinical review recommended.")
    "Ask clinician to verify diagnoses and update claim."

/-- `evaluate_llm_rules(claim)` under an unconfigured OpenAI provider:
the deterministic heuristic suggestions, deduplicated by explanation. -/
def evaluateLlmRules (row : ClaimRow) : List Violation :=
  let service := strTrim (row.service_code.getD "")
  let encounter := strLower (strTrim (row.encounter_type.getD ""))
  let diags := splitDiags (row.diagnosis_codes.getD "")
  let paid := row.paid_amount_aed.getD 0
  let s1 :=
    if PAID_AMOUNT_APPROVAL_THRESHOLD < paid ∧ noApproval row then
      [vio "Technical error"
        ("Paid amount AED " ++ ratToString paid ++
          " is high and typically requires review/approval.")
        "Verify prior approval and supporting documentation for high-value claims."]
    else []
  let s2 :=
    if INPATIENT_ONLY.contains service ∧ encounter ≠ "inpatient" then
      [vio "Technical error"
        ("Service " ++ service ++ " is usually inpatient-only; check encounter context.")
        "Confirm encounter type and clinical justification for outpatient submission."]
    else []
  let s3 :=
    (MUTUALLY_EXCLUSIVE_PAIRS.map (fun p =>
      if diags.contains p.1 ∧ diags.contains p.2 then [rareCoexistSuggestion p.1 p.2]
      else [])).flatten
  let s4 :=
    if diags.contains "Z34.0" ∧ service ≠ "SRV2008" then
      [vio "Medical error"
        "Pregnancy diagnosis present but pregnancy-specific service not billed."
        "If pregnancy care provided, ensure appropriate pregnancy service codes are included."]
    else []
  dedupByExplanation (s1 ++ s2 ++ s3 ++ s4)

/-! ### The per-claim verdict and tenant metrics (`validate_claims`, `app.py`) -/

/-- The verdict fields written back per claim. -/
structure Verdict where
  status : String
  error_type : String
  explanation : String
  recommended_action : String
deriving Repr, DecidableEq

/-- `sep.join(items)`. -/
def joinSep (sep : String) : List String → String
  | [] => ""
  | [s] => s
  | s :: rest => s ++ sep ++ joinSep sep rest

/-- Distinct values of a list under Python `==` (the `set(...)` used for
recommended actions), first occurrence kept. -/
def dedupPyVals (l : List PyVal) : List PyVal :=
  l.foldl (fun acc v => if acc.any (fun w => pyEq w v) then acc else acc ++ [v]) []

/-- The per-claim verdict derivation of `validate_claims` (`app.py`
lines 317-351), given the merged violation list and the raw
`paid_amount_aed` value.  With violations, the Python set comparison
`types == {"Medical error"}` on the non-empty list holds exactly when
every entry `==` that string (likewise for Technical); anything else is
`Both`.  Without violations, a negative coerced paid amount produces the
synthetic Technical verdict, else the claim is validated. -/
def computeVerdict (errors : List Violation) (paidRaw : PyVal) : Verdict :=
  if errors.isEmpty then
    if orZeroFloat paidRaw < 0 then
      ⟨"Not validated", "Technical error",
        "- Paid amount is negative; possible refund or data error.",
        "Investigate payment record; correct negative amount"⟩
    else ⟨"Validated", "No error", "", ""⟩
  else
    let allM := errors.all (fun e => pyEq e.error_type (.str "Medical error"))
    let allT := errors.all (fun e => pyEq e.error_type (.str "Technical error"))
    let et := if allM then "Medical error"
      else if allT then "Technical error" else "Both"
    let explanation := joinSep "\n" (errors.map (fun e => "- " ++ pyToStr e.explanation))
    let recs := dedupPyVals (errors.map (fun e => e.recommended_action))
    ⟨"Not validated", et, explanation, joinSep "; " (recs.map pyToStr)⟩

/-- The merged violation stream for one claim: stored tenant rules, then
the full deterministic checks, then the heuristic suggestions. -/
def claimErrors (rules : List Rule) (cfg : TenantConfig) (row : ClaimRow) :
    List Violation :=
  evaluateStaticRules rules (rowToClaim row) ++ evaluateStaticRulesFull cfg row ++
    evaluateLlmRules row

/-- The verdict `validate_claims` computes for one claim. -/
def claimVerdict (rules : List Rule) (cfg : TenantConfig) (row : ClaimRow) : Verdict :=
  computeVerdict (claimErrors rules cfg row) (optNum row.paid_amount_aed)

/-- `update_claim_result`: write the verdict columns back onto the row. -/
def setVerdict (row : ClaimRow) (v : Verdict) : ClaimRow :=
  { row with
    status := Option.some v.status
    error_type := Option.some v.error_type
    error_explanation := Option.some v.explanation
    recommended_action := Option.some v.recommended_action }

/-- Metric bucket order, as the counts dict is initialised. -/
def CATEGORIES : List String :=
  ["No error", "Medical error", "Technical error", "Both"]

/-- `float(claim.get("paid_amount_aed") or 0)` for the metric totals. -/
def metricsPaid (row : ClaimRow) : Rat :=
  row.paid_amount_aed.getD 0

/-- Per-category counts and paid totals over the adjudicated claims. -/
def computeMetrics (results : List (ClaimRow × Verdict)) :
    List (String × Nat × Rat) :=
  CATEGORIES.map (fun cat =>
    let rows := results.filter (fun rv => rv.2.error_type = cat)
    (cat, rows.length, rows.foldl (fun t rv => rAdd t (metricsPaid rv.1)) 0))

/-- The tenant-scoped state `validate_claims` reads and writes: the
claim rows, the stored rules, the configuration accessor, and the saved
metrics rows. -/
structure TenantState where
  claims : List ClaimRow
  rules : List Rule
  cfg : TenantConfig
  metrics : List (String × Nat × Rat)

/-- One run of `validate_claims` on a tenant: every claim gets its verdict
written back, and the metrics table content is fully replaced
(`save_metrics` deletes then inserts). -/
def runValidate (s : TenantState) : TenantState :=
  let results := s.claims.map (fun row => (row, claimVerdict s.rules s.cfg row))
  { claims := results.map (fun rv => setVerdict rv.1 rv.2)
    rules := s.rules
    cfg := s.cfg
    metrics := computeMetrics results }

end RcmEngine

namespace RcmEngine

/-! ### The advisory provider (`llm_provider.py`) -/

/-- `.strip()` on a Python value: only strings have the method. -/
def pyStripE (v : PyVal) : Except PyErr String :=
  match v with
  | .str s => .ok (strTrim s)
  | _ => .error ⟨"AttributeError"⟩

/-- `_heuristic_suggestions(claim)`: the fixed always-available checks.
The body is wrapped in a silencing handler; the only fallible steps are
the two `.strip()` extractions, which precede every append, so a failure
yields the empty list. -/
def heuristicSuggestions (claim : Claim) : List Violation :=
  let paid := floatOrElse (pyOr (claimGet claim "paid_amount_aed") (.num 0)) 0
  match pyStripE (pyOr (claimGet claim "service_code") (.str "")),
        pyStripE (pyOr (claimGet claim "encounter_type") (.str "")) with
  | .ok service, .ok encounterRaw =>
      let encounter := strLower encounterRaw
      let h1 :=
        if paid ≠ 0 ∧ (250 : Rat) < paid ∧ ¬ (pyTruthy (claimGet claim "approval_number") = true) then
          [vio "Technical error"
            ("Paid amount AED " ++ ratToString paid ++
              " is high and typically requires review/approval.")
            "Verify prior approval and supporting documentation for high-value claims."]
        else []
      let h2 :=
        if service ≠ "" ∧ strStartsWith service "SRV1" ∧ encounter ≠ "inpatient" then
          [vio "Technical error"
            ("Service " ++ service ++ " is commonly inpatient; check encounter type.")
            "Confirm encounter type and clinical justification."]
        else []
      h1 ++ h2
  | _, _ => []

/-- `str(claim.get(key, "")).lower().strip()` (the `val` helper). -/
def valLowerTrim (claim : Claim) (key : String) : String :=
  strTrim (strLower (pyToStr (claimGetD claim key (.str ""))))

/-- One iteration of the `_evaluate_static_rules` scan.  Each rule is
guarded by its own handler: a non-dict rule (`.get` raises) or a truthy
non-string condition (`.lower()` raises) is skipped. -/
def evalOneLlmRule (claim : Claim) (rule : PyVal) : List Violation :=
  match rule with
  | .dict kvs =>
    (match pyOr (dictGet kvs "condition") (.str "") with
     | .str condRaw =>
        let cond := strLower condRaw
        let desc := pyOr (dictGet kvs "explanation")
          (pyOr (dictGet kvs "description") (.str ""))
        let action := pyOr (dictGet kvs "recommended_action")
          (pyOr (dictGet kvs "action") (.str "Review claim."))
        if strContainsSub cond "approval" ∧
            ¬ (pyTruthy (claimGet claim "approval_number") = true) then
          [⟨pyOr (dictGet kvs "error_type") (.str "Technical error"),
            pyOr desc (.str "Missing approval number for this rule."), action⟩]
        else if strContainsSub cond "inpatient" ∧
            valLowerTrim claim "encounter_type" ≠ "inpatient" then
          [⟨pyOr (dictGet kvs "error_type") (.str "Medical error"),
            pyOr desc (.str "Rule expects inpatient encounter type."), action⟩]
        else if strContainsSub cond "paid_amount" ∨ strContainsSub cond "amount" ∨
            dictHasKey kvs "threshold" then
          let threshold := floatOrElse
            (pyOr (dictGet kvs "threshold") (pyOr (dictGet kvs "value") (.num 250))) 0
          let paid := floatOrElse (pyOr (claimGet claim "paid_amount_aed") (.num 0)) 0
          if threshold < paid then
            [⟨pyOr (dictGet kvs "error_type") (.str "Technical error"),
              pyOr desc (.str ("Claim exceeds threshold AED " ++ ratToString threshold ++ ".")),
              action⟩]
          else []
        else []
     | _ => [])
  | _ => []

/-- `_evaluate_static_rules(claim, technical_rules, medical_rules)`: scan
the concatenated rule sets for textual cues, falling back to the
heuristics when no rule produced a suggestion. -/
def llmStaticRules (claim : Claim)
    (technicalRules medicalRules : Option (List PyVal)) : List Violation :=
  let rulesets := technicalRules.getD [] ++ medicalRules.getD []
  let suggestions := (rulesets.map (evalOneLlmRule claim)).flatten
  if suggestions.isEmpty then heuristicSuggestions claim else suggestions

/-- `_parse_text_to_suggestions(text)`: parse the model output as a JSON
array of violation-shaped objects; any other shape gives the empty list. -/
def parseTextToSuggestions (text : String) : List Violation :=
  match jsonLoads (strTrim text) with
  | Option.some (.list items) =>
      items.filterMap (fun item =>
        match item with
        | .dict kvs =>
            Option.some
              ⟨pyOr (dictGet kvs "error_type")
                  (pyOr (dictGet kvs "type") (.str "Medical error")),
                pyOr (dictGet kvs "explanation")
                  (pyOr (dictGet kvs "explain") (.str (pyToStr item))),
                pyOr (dictGet kvs "recommended_action")
                  (pyOr (dictGet kvs "action") (.str ""))⟩
        | _ => Option.none)
  | _ => []

/-- `d.get(k, default)` on a Python value: only dicts have the method. -/
def pyDictGetE (v : PyVal) (k : String) (d : PyVal) : Except PyErr PyVal :=
  match v with
  | .dict kvs => .ok ((kvs.lookup k).getD d)
  | _ => .error ⟨"AttributeError"⟩

/-- `v[0]`: head of a list, first character of a string; everything else
raises (`KeyError` on the string-keyed dicts, `TypeError` otherwise). -/
def pyIndexZeroE (v : PyVal) : Except PyErr PyVal :=
  match v with
  | .list (x :: _) => .ok x
  | .list [] => .error ⟨"IndexError"⟩
  | .str s =>
      (match s.data with
       | c :: _ => .ok (.str (String.mk [c]))
       | [] => .error ⟨"IndexError"⟩)
  | .dict _ => .error ⟨"KeyError"⟩
  | _ => .error ⟨"TypeError"⟩

/-- The chained extraction of the candidate text from the decoded Gemini
response body (`data.get("candidates", [{}])[0].get("content", {})
.get("parts", [{}])[0].get("text", "").strip()`). -/
def extractGeminiText (data : PyVal) : Except PyErr String := do
  let cands ← pyDictGetE data "candidates" (.list [.dict []])
  let c0 ← pyIndexZeroE cands
  let content ← pyDictGetE c0 "content" (.dict [])
  let parts ← pyDictGetE content "parts" (.list [.dict []])
  let p0 ← pyIndexZeroE parts
  let text ← pyDictGetE p0 "text" (.str "")
  pyStripE text

/-- The outcome of the single external request: an HTTP response with a
status and textual body, or a transport failure (connection error or
timeout, both raised by `requests`). -/
inductive HttpOutcome where
  | response (status : Nat) (body : String)
  | failure

/-- Minimum seconds between external calls (`_MIN_INTERVAL`). -/
def MIN_INTERVAL : Rat := 2

/-- `evaluate_claim_llm` in the exception monad, faithful to the source's
handler structure.  Inputs beyond the claim and rule sets: the provider
selection and API key (environment), `now`/`lastReq` (the clock and the
shared throttle timestamp at entry), `timeAfter` (the clock when a quota
response is handled), and the request outcome.  Returns the violation
list together with the new throttle timestamp.  Every failure point sits
inside the outer handler, which resolves to the static-rule fallback;
both early-return paths are failure-free. -/
def evaluateClaimLlmE (provider : String) (apiKey : Option String)
    (now lastReq timeAfter : Rat) (outcome : HttpOutcome) (claim : Claim)
    (technicalRules medicalRules : Option (List PyVal)) :
    Except PyErr (List Violation × Rat) :=
  if ¬ (provider = "gemini" ∨ provider = "google") then
    pure (llmStaticRules claim technicalRules medicalRules, lastReq)
  else if apiKey.getD "" = "" then
    pure (llmStaticRules claim technicalRules medicalRules, lastReq)
  else
    tryCatch
      (if rSub now lastReq < MIN_INTERVAL then
         pure (llmStaticRules claim technicalRules medicalRules, lastReq)
       else
         match outcome with
         | .failure => throw ⟨"requests"⟩
         | .response status body =>
           if status = 429 then
             pure (llmStaticRules claim technicalRules medicalRules, rAdd timeAfter 60)
           else if 400 ≤ status then
             pure (llmStaticRules claim technicalRules medicalRules, now)
           else do
             let data ← match jsonLoads body with
               | Option.some v => pure v
               | Option.none => throw (⟨"JSONDecodeError"⟩ : PyErr)
             let text ← extractGeminiText data
             let parsed := parseTextToSuggestions text
             if parsed.isEmpty then
               pure (llmStaticRules claim technicalRules medicalRules, now)
             else pure (parsed, now))
      (fun _ => pure (llmStaticRules claim technicalRules medicalRules, now))

end RcmEngine

namespace RcmEngine

/-! ### Helper lemmas -/

/-- `tryCatch` on a successful `Except` computation is the identity. -/
theorem exceptTryCatch_ok {α : Type} (x : α) (h : PyErr → Except PyErr α) :
    tryCatch (Except.ok x) h = Except.ok x := rfl

/-- `tryCatch` on a failed `Except` computation runs the handler. -/
theorem exceptTryCatch_error {α : Type} (e : PyErr) (h : PyErr → Except PyErr α) :
    tryCatch (Except.error e : Except PyErr α) h = h e := rfl

/-- Python `==` against a string is exactly syntactic string equality. -/
theorem pyEq_str_iff (x : PyVal) (s : String) :
    pyEq x (.str s) = true ↔ x = .str s := by
  cases x <;> simp [pyEq]

end RcmEngine

namespace RcmEngine

/-! ### C4 -/

/-- C4: for every rule and every claim, if the claim field referenced by
the rule is absent or null (`claim.get(field) is None`) then `apply_rule`
reports a violation, regardless of the rule's condition. -/
theorem apply_rule_missing_field_violates (rule : Rule) (claim : Claim)
    (h : claimGet claim rule.field = PyVal.none) :
    applyRule rule claim = true := by
  unfold applyRule
  rw [h]
  rfl

/-- C4 witness: a claim without the field `"f"`, against an `equals` rule
on `"f"`, is violated. -/
theorem apply_rule_missing_field_violates_witness :
    claimGet [("g", PyVal.num 1)] "f" = PyVal.none ∧
      applyRule ⟨"r1", "f", "equals", PyVal.num 1, PyVal.str "Technical error",
        PyVal.str "e", PyVal.str "a"⟩ [("g", PyVal.num 1)] = true :=
  ⟨rfl, apply_rule_missing_field_violates
    ⟨"r1", "f", "equals", PyVal.num 1, PyVal.str "Technical error",
      PyVal.str "e", PyVal.str "a"⟩ [("g", PyVal.num 1)] rfl⟩

/-! ### C2 -/

/-- C2 counterexample: a string is not a list, yet Python membership
against it is the substring test, so with rule value `"AB"` and claim
value `"A"` a `not_in` rule reports **no** violation (the claim predicts
one) and an `in` rule **does** report a violation (the claim predicts
none). -/
theorem apply_rule_nonlist_counterexample :
    applyRule ⟨"r1", "f", "not_in", PyVal.str "AB", PyVal.str "Technical error",
        PyVal.str "e", PyVal.str "a"⟩ [("f", PyVal.str "A")] = false ∧
      applyRule ⟨"r2", "f", "in", PyVal.str "AB", PyVal.str "Technical error",
        PyVal.str "e", PyVal.str "a"⟩ [("f", PyVal.str "A")] = true :=
  ⟨rfl, rfl⟩

/-- A value that supports no membership test at all: `None`, a boolean or
a number (not a list, and not a string, whose membership is the substring
test). -/
def PyVal.isScalarNonStr : PyVal → Bool
  | .none => true
  | .bool _ => true
  | .num _ => true
  | _ => false

/-- C2 (amended): for every rule whose value is neither a list nor a
string (nor a dict) — so the membership test itself raises — and every
claim in which the rule's field is present and non-null, a `not_in` rule
always reports a violation (fail-closed) and an `in` rule never does
(fail-open). -/
theorem apply_rule_in_notIn_asymmetry (rule : Rule) (claim : Claim)
    (hv : rule.value.isScalarNonStr = true)
    (hp : (claimGet claim rule.field).isNone = false) :
    (rule.condition = "not_in" → applyRule rule claim = true) ∧
      (rule.condition = "in" → applyRule rule claim = false) := by
  have hin : pyInE (claimGet claim rule.field) rule.value = .error ⟨"TypeError"⟩ := by
    cases hval : rule.value <;>
      first
        | rfl
        | simp [PyVal.isScalarNonStr, hval] at hv
  refine ⟨fun hc => ?_, fun hc => ?_⟩ <;>
    simp [applyRule, hc, hp, hin]

/-- C2 witness for the amended theorem: a numeric rule value with a
present claim field. -/
theorem apply_rule_in_notIn_asymmetry_witness :
    (PyVal.num 5).isScalarNonStr = true ∧
      (claimGet [("f", PyVal.str "A")] "f").isNone = false ∧
      applyRule ⟨"r1", "f", "not_in", PyVal.num 5, PyVal.str "Technical error",
        PyVal.str "e", PyVal.str "a"⟩ [("f", PyVal.str "A")] = true ∧
      applyRule ⟨"r2", "f", "in", PyVal.num 5, PyVal.str "Technical error",
        PyVal.str "e", PyVal.str "a"⟩ [("f", PyVal.str "A")] = false :=
  ⟨rfl, rfl,
    (apply_rule_in_notIn_asymmetry
      ⟨"r1", "f", "not_in", PyVal.num 5, PyVal.str "Technical error",
        PyVal.str "e", PyVal.str "a"⟩ [("f", PyVal.str "A")] rfl rfl).1 rfl,
    (apply_rule_in_notIn_asymmetry
      ⟨"r2", "f", "in", PyVal.num 5, PyVal.str "Technical error",
        PyVal.str "e", PyVal.str "a"⟩ [("f", PyVal.str "A")] rfl rfl).2 rfl⟩

/-! ### C10 -/

/-- C10: `apply_rule` is total — for every rule dictionary (with its
`field`, `condition` and `value` entries) and every claim dictionary, the
exception-monad translation returns `ok` of the compiled boolean: every
operator branch is exception-free or guarded by a handler. -/
theorem apply_rule_total (rule : Rule) (claim : Claim) :
    applyRuleE rule claim = Except.ok (applyRule rule claim) := by
  simp only [applyRule, applyRuleE]
  split_ifs <;>
    first
      | rfl
      | (cases hA : pyFloatE (claimGet claim rule.field) <;>
          cases hB : pyFloatE rule.value <;> rfl)
      | (cases hA : pyInE (claimGet claim rule.field) rule.value <;> rfl)

end RcmEngine

namespace RcmEngine

/-! ### C1 -/

/-- C1: the `validate_claims` verdict per claim.  A non-empty merged
violation list gives status `Not validated` with the category derived from
the distinct `error_type` values present (all `Medical error` → that, all
`Technical error` → that, anything else → `Both`); an empty list with a
non-negative coerced paid amount gives `Validated`/`No error`; an empty
list with a negative paid amount gives the synthetic
`Not validated`/`Technical error` verdict. -/
theorem validate_claims_verdict_categorization (errors : List Violation)
    (paidRaw : PyVal) :
    (errors ≠ [] →
      (computeVerdict errors paidRaw).status = "Not validated" ∧
        ((∀ e ∈ errors, e.error_type = PyVal.str "Medical error") →
          (computeVerdict errors paidRaw).error_type = "Medical error") ∧
        ((∀ e ∈ errors, e.error_type = PyVal.str "Technical error") →
          (computeVerdict errors paidRaw).error_type = "Technical error") ∧
        (¬ (∀ e ∈ errors, e.error_type = PyVal.str "Medical error") →
          ¬ (∀ e ∈ errors, e.error_type = PyVal.str "Technical error") →
          (computeVerdict errors paidRaw).error_type = "Both")) ∧
    (errors = [] → 0 ≤ orZeroFloat paidRaw →
      (computeVerdict errors paidRaw).status = "Validated" ∧
        (computeVerdict errors paidRaw).error_type = "No error") ∧
    (errors = [] → orZeroFloat paidRaw < 0 →
      (computeVerdict errors paidRaw).status = "Not validated" ∧
        (computeVerdict errors paidRaw).error_type = "Technical error") := by
  have hM : (errors.all (fun e => pyEq e.error_type (.str "Medical error")) = true) ↔
      (∀ e ∈ errors, e.error_type = PyVal.str "Medical error") := by
    simp [List.all_eq_true, pyEq_str_iff]
  have hT : (errors.all (fun e => pyEq e.error_type (.str "Technical error")) = true) ↔
      (∀ e ∈ errors, e.error_type = PyVal.str "Technical error") := by
    simp [List.all_eq_true, pyEq_str_iff]
  refine ⟨fun hne => ?_, fun he hp => ?_, fun he hp => ?_⟩
  · have hne2 : errors.isEmpty = false := by
      simpa [List.isEmpty_iff] using hne
    refine ⟨?_, fun hall => ?_, fun hall => ?_, fun hnM hnT => ?_⟩
    · simp [computeVerdict, hne2]
    · simp [computeVerdict, hne2, hM.mpr hall]
    · have hMf : errors.all (fun e => pyEq e.error_type (.str "Medical error")) = false := by
        cases hMb : errors.all (fun e => pyEq e.error_type (.str "Medical error"))
        · rfl
        · obtain ⟨e0, he0⟩ := List.exists_mem_of_ne_nil errors hne
          have h1 := hM.mp hMb e0 he0
          have h2 := hall e0 he0
          rw [h1] at h2
          simp at h2
      simp [computeVerdict, hne2, hMf, hT.mpr hall]
    · have hMf : errors.all (fun e => pyEq e.error_type (.str "Medical error")) = false := by
        cases hMb : errors.all (fun e => pyEq e.error_type (.str "Medical error"))
        · rfl
        · exact absurd (hM.mp hMb) hnM
      have hTf : errors.all (fun e => pyEq e.error_type (.str "Technical error")) = false := by
        cases hTb : errors.all (fun e => pyEq e.error_type (.str "Technical error"))
        · rfl
        · exact absurd (hT.mp hTb) hnT
      simp [computeVerdict, hne2, hMf, hTf]
  · subst he
    simp [computeVerdict, not_lt.mpr hp]
  · subst he
    simp [computeVerdict, hp]

/-- C1 witness: a single Medical violation gives `Not validated` /
`Medical error`; no violations with paid amount `-10` give the synthetic
Technical verdict. -/
theorem validate_claims_verdict_categorization_witness :
    (computeVerdict [vio "Medical error" "e" "a"] (PyVal.num 5)).status = "Not validated" ∧
      (computeVerdict [vio "Medical error" "e" "a"] (PyVal.num 5)).error_type = "Medical error" ∧
      (computeVerdict [] (PyVal.num (-10))).status = "Not validated" ∧
      (computeVerdict [] (PyVal.num (-10))).error_type = "Technical error" := by
  have h1 := validate_claims_verdict_categorization [vio "Medical error" "e" "a"] (PyVal.num 5)
  have h2 := validate_claims_verdict_categorization [] (PyVal.num (-10))
  have hne : ([vio "Medical error" "e" "a"] : List Violation) ≠ [] := by simp
  have hall : ∀ e ∈ [vio "Medical error" "e" "a"], e.error_type = PyVal.str "Medical error" := by
    intro e he
    simp [vio] at he
    rw [he]
  have hneg : orZeroFloat (PyVal.num (-10)) < 0 := by decide
  exact ⟨(h1.1 hne).1, (h1.1 hne).2.1 hall, (h2.2.2 rfl hneg).1, (h2.2.2 rfl hneg).2⟩

/-! ### C9 -/

/-- C9: every verdict couples status and error category — `Validated`
exactly with `No error`, `Not validated` exactly with one of
`Medical error` / `Technical error` / `Both`, and no verdict carries any
other status. -/
theorem verdict_status_category_coupling (errors : List Violation) (paidRaw : PyVal) :
    ((computeVerdict errors paidRaw).status = "Validated" ↔
        (computeVerdict errors paidRaw).error_type = "No error") ∧
      ((computeVerdict errors paidRaw).status = "Not validated" ↔
        ((computeVerdict errors paidRaw).error_type = "Medical error" ∨
          (computeVerdict errors paidRaw).error_type = "Technical error" ∨
          (computeVerdict errors paidRaw).error_type = "Both")) ∧
      ((computeVerdict errors paidRaw).status = "Validated" ∨
        (computeVerdict errors paidRaw).status = "Not validated") := by
  simp only [computeVerdict]
  split_ifs <;> simp

end RcmEngine

namespace RcmEngine

/-! ### Counting helpers for C7 -/

/-- A guarded one-element chunk contributes nothing when its element fails
the predicate. -/
theorem countP_ite_single_zero {p : Violation → Bool} (c : Prop) [Decidable c]
    {v : Violation} (h : p v = false) :
    (if c then [v] else ([] : List Violation)).countP p = 0 := by
  split_ifs <;> simp [List.countP_cons, h]

/-- Symmetric form for an `if ... then [] else [v]` chunk. -/
theorem countP_ite_nil_single_zero {p : Violation → Bool} (c : Prop) [Decidable c]
    {v : Violation} (h : p v = false) :
    (if c then ([] : List Violation) else [v]).countP p = 0 := by
  split_ifs <;> simp [List.countP_cons, h]

/-- A flattened map contributes nothing when every image does. -/
theorem countP_flatten_map_zero {α : Type} (p : Violation → Bool) (l : List α)
    (g : α → List Violation) (h : ∀ x, (g x).countP p = 0) :
    ((l.map g).flatten).countP p = 0 := by
  induction l with
  | nil => rfl
  | cons x xs ih => simp [List.countP_append, h x, ih]

/-- A violation record differing in its action is not the given one. -/
theorem violBeq_action_ne {v w : Violation}
    (h : pyBeq v.recommended_action w.recommended_action = false) :
    violBeq v w = false := by
  simp [violBeq, h]

/-- Distinct strings are distinct `PyVal` strings under structural
equality. -/
theorem pyBeq_str_false {s t : String} (h : s ≠ t) :
    pyBeq (.str s) (.str t) = false := by
  simp only [pyBeq]
  exact beq_eq_false_iff_ne.mpr h

/-- Strings whose first characters differ are different. -/
theorem ne_of_data_head {s t : String} {c d : Char} (hs : s.data.head? = some c)
    (ht : t.data.head? = some d) (h : c ≠ d) : s ≠ t := by
  intro he
  rw [he, ht] at hs
  exact h (Option.some.inj hs).symm

/-- Every chunk of Technical-typed violations contributes nothing to the
count of a (Medical) mutually-exclusive-pair violation. -/
theorem countP_tech_chunk_zero (c : Prop) [Decidable c] (e u a b : String) :
    (if c then [vio "Technical error" e u] else ([] : List Violation)).countP
      (fun v => violBeq v (mutexViolation a b)) = 0 :=
  countP_ite_single_zero c rfl

/-- `else`-branch form of `countP_tech_chunk_zero` (the ID-format chunk). -/
theorem countP_tech_chunk_zero' (c : Prop) [Decidable c] (e u a b : String) :
    (if c then ([] : List Violation) else [vio "Technical error" e u]).countP
      (fun v => violBeq v (mutexViolation a b)) = 0 :=
  countP_ite_nil_single_zero c rfl

/-- A diagnosis-required-service chunk never counts as a
mutually-exclusive-pair violation (its action starts differently). -/
theorem countP_diagRequired_chunk_zero (c : Prop) [Decidable c]
    (p1 p2 a b : String) :
    ((if c then [vio "Medical error" ("Diagnosis " ++ p1 ++ " requires service " ++ p2)
        ("Ensure service " ++ p2 ++ " is billed when diagnosis " ++ p1 ++ " is present")]
      else ([] : List Violation)).countP (fun v => violBeq v (mutexViolation a b))) = 0 :=
  countP_ite_single_zero c
    (violBeq_action_ne (pyBeq_str_false (ne_of_data_head rfl rfl (by decide))))

/-- The per-service cap scan produces only cap violations, which never
count as a mutually-exclusive-pair violation. -/
theorem capsScan_countP_mutex (svc : String) (paid : Rat) (na : Bool)
    (l : List PyVal) (a b : String) :
    (capsScan svc paid na l).countP (fun v => violBeq v (mutexViolation a b)) = 0 := by
  induction l with
  | nil => rfl
  | cons e rest ih =>
      cases e with
      | dict kvs =>
          simp only [capsScan]
          split_ifs with h1
          · cases hp : pyFloatE (pyOr (dictGet kvs "cap") (.num 0)) with
            | ok q =>
                dsimp only
                split_ifs with h2
                · simp [List.countP_cons,
                    show violBeq (capViolation paid q svc) (mutexViolation a b) = false from rfl]
                · rfl
            | error er => exact ih
          · exact ih
      | none => exact ih
      | bool x => exact ih
      | num x => exact ih
      | str x => exact ih
      | list x => exact ih

/-- The whole cap check contributes nothing to the mutually-exclusive-pair
count, for every configuration. -/
theorem capsViolations_countP_mutex (cfg : TenantConfig) (svc : String)
    (paid : Rat) (na : Bool) (a b : String) :
    (capsViolations cfg svc paid na).countP
      (fun v => violBeq v (mutexViolation a b)) = 0 := by
  unfold capsViolations
  cases cfg "paid_amount_caps" with
  | none => rfl
  | some s =>
      dsimp only
      split_ifs with h
      · cases hj : jsonLoads s with
        | none => rfl
        | some v =>
            cases v with
            | list entries => exact capsScan_countP_mutex (strTrim svc) paid na entries a b
            | none => rfl
            | bool x => rfl
            | num x => rfl
            | str x => rfl
            | dict x => rfl
      · rfl

end RcmEngine

namespace RcmEngine

/-- A flattened map of Technical-typed chunks contributes nothing to the
mutually-exclusive-pair count. -/
theorem countP_tech_flatten_zero {α : Type} (l : List α) (c : α → Prop)
    [DecidablePred c] (e u : α → String) (a b : String) :
    ((l.map (fun d => if c d then [vio "Technical error" (e d) (u d)] else [])).flatten).countP
      (fun v => violBeq v (mutexViolation a b)) = 0 :=
  countP_flatten_map_zero _ _ _ (fun d => countP_tech_chunk_zero (c d) (e d) (u d) a b)

/-- A chunk for a different mutually exclusive pair contributes nothing. -/
theorem countP_mutex_other_zero (c : Prop) [Decidable c] (x y a b : String)
    (h : violBeq (mutexViolation x y) (mutexViolation a b) = false) :
    (if c then [mutexViolation x y] else ([] : List Violation)).countP
      (fun v => violBeq v (mutexViolation a b)) = 0 := by
  split_ifs <;> simp [List.countP_cons, h]

/-- The full deterministic check suite records exactly one violation for a
co-occurring declared mutually exclusive pair. -/
theorem evalFull_mutex_count (cfg : TenantConfig) (row : ClaimRow) (a b : String)
    (hpair : (a, b) ∈ MUTUALLY_EXCLUSIVE_PAIRS)
    (ha : (splitDiags (row.diagnosis_codes.getD "")).contains a = true)
    (hb : (splitDiags (row.diagnosis_codes.getD "")).contains b = true) :
    (evaluateStaticRulesFull cfg row).countP
      (fun v => violBeq v (mutexViolation a b)) = 1 := by
  simp only [MUTUALLY_EXCLUSIVE_PAIRS, List.mem_cons, List.not_mem_nil, or_false,
    Prod.mk.injEq] at hpair
  rcases hpair with ⟨rfl, rfl⟩ | ⟨rfl, rfl⟩ | ⟨rfl, rfl⟩
  · simp only [evaluateStaticRulesFull, DIAG_REQUIRED_SERVICE, MUTUALLY_EXCLUSIVE_PAIRS,
      List.map_cons, List.map_nil, List.flatten_cons, List.flatten_nil, List.append_nil,
      List.countP_append]
    cases hB : List.lookup (strTrim (row.facility_id.getD "")) FACILITY_TYPES <;>
      · dsimp only
        simp only [countP_tech_chunk_zero, countP_tech_chunk_zero',
          countP_diagRequired_chunk_zero, countP_tech_flatten_zero,
          capsViolations_countP_mutex,
          countP_mutex_other_zero _ "E66.9" "E66.3" "R73.03" "E11.9" rfl,
          countP_mutex_other_zero _ "R51" "G43.9" "R73.03" "E11.9" rfl]
        rw [if_pos (And.intro ha hb)]
        simp [List.countP_cons,
          show violBeq (mutexViolation "R73.03" "E11.9")
            (mutexViolation "R73.03" "E11.9") = true from rfl]
  · simp only [evaluateStaticRulesFull, DIAG_REQUIRED_SERVICE, MUTUALLY_EXCLUSIVE_PAIRS,
      List.map_cons, List.map_nil, List.flatten_cons, List.flatten_nil, List.append_nil,
      List.countP_append]
    cases hB : List.lookup (strTrim (row.facility_id.getD "")) FACILITY_TYPES <;>
      · dsimp only
        simp only [countP_tech_chunk_zero, countP_tech_chunk_zero',
          countP_diagRequired_chunk_zero, countP_tech_flatten_zero,
          capsViolations_countP_mutex,
          countP_mutex_other_zero _ "R73.03" "E11.9" "E66.9" "E66.3" rfl,
          countP_mutex_other_zero _ "R51" "G43.9" "E66.9" "E66.3" rfl]
        rw [if_pos (And.intro ha hb)]
        simp [List.countP_cons,
          show violBeq (mutexViolation "E66.9" "E66.3")
            (mutexViolation "E66.9" "E66.3") = true from rfl]
  · simp only [evaluateStaticRulesFull, DIAG_REQUIRED_SERVICE, MUTUALLY_EXCLUSIVE_PAIRS,
      List.map_cons, List.map_nil, List.flatten_cons, List.flatten_nil, List.append_nil,
      List.countP_append]
    cases hB : List.lookup (strTrim (row.facility_id.getD "")) FACILITY_TYPES <;>
      · dsimp only
        simp only [countP_tech_chunk_zero, countP_tech_chunk_zero',
          countP_diagRequired_chunk_zero, countP_tech_flatten_zero,
          capsViolations_countP_mutex,
          countP_mutex_other_zero _ "R73.03" "E11.9" "R51" "G43.9" rfl,
          countP_mutex_other_zero _ "E66.9" "E66.3" "R51" "G43.9" rfl]
        rw [if_pos (And.intro ha hb)]
        simp [List.countP_cons,
          show violBeq (mutexViolation "R51" "G43.9")
            (mutexViolation "R51" "G43.9") = true from rfl]

end RcmEngine

namespace RcmEngine

/-- Every survivor of the duplicate-explanation fold came from the
accumulator or the input. -/
theorem dedupFold_subset (vs : List Violation) (acc : List Violation) (seen : List PyVal) :
    ∀ v ∈ (vs.foldl dedupStep (acc, seen)).1, v ∈ acc ∨ v ∈ vs := by
  induction vs generalizing acc seen with
  | nil => exact fun v hv => Or.inl hv
  | cons w rest ih =>
      intro v hv
      rw [List.foldl_cons] at hv
      by_cases hs : seen.any (fun e => pyEq e w.explanation) = true
      · rw [show dedupStep (acc, seen) w = (acc, seen) from by simp [dedupStep, hs]] at hv
        rcases ih acc seen v hv with h | h
        · exact Or.inl h
        · exact Or.inr (List.mem_cons_of_mem w h)
      · rw [show dedupStep (acc, seen) w = (acc ++ [w], seen ++ [w.explanation]) from by
          simp [dedupStep, hs]] at hv
        rcases ih _ _ v hv with h | h
        · rcases List.mem_append.mp h with h | h
          · exact Or.inl h
          · simp only [List.mem_singleton] at h
            exact Or.inr (by rw [h]; exact List.mem_cons_self w rest)
        · exact Or.inr (List.mem_cons_of_mem w h)

/-- The duplicate-explanation filter returns a subset of its input. -/
theorem dedup_subset (vs : List Violation) : ∀ v ∈ dedupByExplanation vs, v ∈ vs := by
  intro v hv
  rcases dedupFold_subset vs [] [] v hv with h | h
  · exact absurd h (List.not_mem_nil v)
  · exact h

/-- Through the duplicate-explanation fold, the number of violations
carrying a given string explanation is one when it was seen or occurs,
else zero. -/
theorem dedupFold_countP (x : String) (vs : List Violation) (acc : List Violation)
    (seen : List PyVal)
    (hinv : acc.countP (fun v => pyEq v.explanation (.str x)) =
      (if seen.any (fun e => pyEq e (.str x)) = true then 1 else 0)) :
    ((vs.foldl dedupStep (acc, seen)).1).countP (fun v => pyEq v.explanation (.str x)) =
      (if (seen.any (fun e => pyEq e (.str x)) ||
          vs.any (fun v => pyEq v.explanation (.str x))) = true then 1 else 0) := by
  induction vs generalizing acc seen with
  | nil => simpa using hinv
  | cons w rest ih =>
      rw [List.foldl_cons]
      by_cases hs : seen.any (fun e => pyEq e w.explanation) = true
      · rw [show dedupStep (acc, seen) w = (acc, seen) from by simp [dedupStep, hs]]
        rw [ih acc seen hinv]
        by_cases hw : pyEq w.explanation (.str x) = true
        · have hx : w.explanation = .str x := (pyEq_str_iff _ _).mp hw
          have hsx : seen.any (fun e => pyEq e (.str x)) = true := by
            rw [← hx]; exact hs
          simp [hsx]
        · have hw' : pyEq w.explanation (.str x) = false := by
            simpa using hw
          simp [List.any_cons, hw']
      · have hs' : seen.any (fun e => pyEq e w.explanation) = false := by simpa using hs
        rw [show dedupStep (acc, seen) w = (acc ++ [w], seen ++ [w.explanation]) from by
          simp [dedupStep, hs']]
        have hinv' : (acc ++ [w]).countP (fun v => pyEq v.explanation (.str x)) =
            (if (seen ++ [w.explanation]).any (fun e => pyEq e (.str x)) = true
              then 1 else 0) := by
          rw [List.countP_append, List.any_append, hinv]
          by_cases hw : pyEq w.explanation (.str x) = true
          · have hx : w.explanation = .str x := (pyEq_str_iff _ _).mp hw
            have hsx : seen.any (fun e => pyEq e (.str x)) = false := by
              rw [← hx]; exact hs'
            simp [hsx, hw, List.countP_cons]
          · have hw' : pyEq w.explanation (.str x) = false := by simpa using hw
            simp [hw', List.countP_cons]
        rw [ih _ _ hinv']
        simp [List.any_append, List.any_cons, Bool.or_assoc]

/-- After deduplication, a string explanation occurs exactly once if any
input violation carried it, else not at all. -/
theorem dedup_countP_explanation (vs : List Violation) (x : String) :
    (dedupByExplanation vs).countP (fun v => pyEq v.explanation (.str x)) =
      (if vs.any (fun v => pyEq v.explanation (.str x)) = true then 1 else 0) := by
  have h := dedupFold_countP x vs [] [] (by simp)
  simpa [dedupByExplanation] using h

end RcmEngine

namespace RcmEngine

/-- A string extending a prefix that the target lacks differs from it. -/
theorem append_ne_of_no_lead (x : String) {pre t : String}
    (h : ¬ pre.data <+: t.data) : pre ++ x ≠ t := by
  intro he
  apply h
  have hd : pre.data ++ x.data = t.data := by
    rw [← String.data_append]
    exact congrArg String.data he
  exact hd ▸ List.prefix_append pre.data x.data

/-- Deduplication keeps exactly one violation for an explanation carried
by some input violation. -/
theorem countP_dedup_one_of_mem (vs : List Violation) (x : String) (v : Violation)
    (hv : v ∈ vs) (hx : pyEq v.explanation (.str x) = true) :
    (dedupByExplanation vs).countP (fun w => pyEq w.explanation (.str x)) = 1 := by
  rw [dedup_countP_explanation, if_pos (List.any_eq_true.mpr ⟨v, hv, hx⟩)]

/-- C7: for every claim whose parsed diagnosis list contains both codes of
a declared mutually exclusive pair, `evaluate_static_rules_full` records
exactly one Medical violation for that pair, and the heuristic evaluator
`evaluate_llm_rules` records exactly one suggestion carrying that pair's
explanation — which is exactly its Medical clinical-review suggestion. -/
theorem mutex_pair_single_violation (cfg : TenantConfig) (row : ClaimRow) (a b : String)
    (hpair : (a, b) ∈ MUTUALLY_EXCLUSIVE_PAIRS)
    (ha : (splitDiags (row.diagnosis_codes.getD "")).contains a = true)
    (hb : (splitDiags (row.diagnosis_codes.getD "")).contains b = true) :
    (evaluateStaticRulesFull cfg row).countP
        (fun v => violBeq v (mutexViolation a b)) = 1 ∧
      (evaluateLlmRules row).countP (fun v => pyEq v.explanation
        (.str ("Diagnoses " ++ a ++ " and " ++ b ++
          " rarely co-exist; clinical review recommended."))) = 1 ∧
      ∀ v ∈ evaluateLlmRules row,
        pyEq v.explanation (.str ("Diagnoses " ++ a ++ " and " ++ b ++
          " rarely co-exist; clinical review recommended.")) = true →
          v = rareCoexistSuggestion a b := by
  have hmem : rareCoexistSuggestion a b ∈ (MUTUALLY_EXCLUSIVE_PAIRS.map (fun p =>
      if (splitDiags (row.diagnosis_codes.getD "")).contains p.1 ∧
          (splitDiags (row.diagnosis_codes.getD "")).contains p.2 then
        [rareCoexistSuggestion p.1 p.2] else [])).flatten := by
    rw [List.mem_flatten]
    refine ⟨_, List.mem_map_of_mem _ hpair, ?_⟩
    dsimp only
    rw [if_pos (And.intro ha hb)]
    exact List.mem_singleton.mpr rfl
  refine ⟨evalFull_mutex_count cfg row a b hpair ha hb, ?_, ?_⟩
  · simp only [evaluateLlmRules]
    exact countP_dedup_one_of_mem _ _ (rareCoexistSuggestion a b)
      (List.mem_append.mpr (Or.inl (List.mem_append.mpr (Or.inr hmem))))
      (by simp [rareCoexistSuggestion, vio, pyEq])
  · simp only [MUTUALLY_EXCLUSIVE_PAIRS, List.mem_cons, List.not_mem_nil, or_false,
      Prod.mk.injEq] at hpair
    intro v hv hm
    simp only [evaluateLlmRules] at hv
    have hv' := dedup_subset _ v hv
    simp only [MUTUALLY_EXCLUSIVE_PAIRS, List.map_cons, List.map_nil, List.flatten_cons,
      List.flatten_nil, List.append_nil, List.mem_append] at hv'
    rcases hpair with ⟨rfl, rfl⟩ | ⟨rfl, rfl⟩ | ⟨rfl, rfl⟩ <;>
      rcases hv' with ((h | h) | (h | h | h)) | h <;>
        split_ifs at h <;>
          first
            | exact absurd h (List.not_mem_nil v)
            | (simp only [List.mem_singleton] at h
               subst h
               first
                 | rfl
                 | exact absurd hm (by decide)
                 | (have hE := PyVal.str.inj ((pyEq_str_iff _ _).mp hm)
                    simp only [String.append_assoc] at hE
                    exact absurd hE (append_ne_of_no_lead _ (by decide))))

/-- A concrete claim row carrying both codes of the first declared pair. -/
def mutexRow : ClaimRow :=
  ⟨0, "t", Option.some "C1", Option.none, Option.none, Option.none, Option.none,
   Option.none, Option.none, Option.some "R73.03,E11.9", Option.none, Option.none,
   Option.none, Option.none, Option.none, Option.none, Option.none⟩

/-- C7 witness: the pair `R73.03`/`E11.9` on a concrete claim. -/
theorem mutex_pair_single_violation_witness :
    ("R73.03", "E11.9") ∈ MUTUALLY_EXCLUSIVE_PAIRS ∧
      (splitDiags (mutexRow.diagnosis_codes.getD "")).contains "R73.03" = true ∧
      (evaluateStaticRulesFull (fun _ => Option.none) mutexRow).countP
        (fun v => violBeq v (mutexViolation "R73.03" "E11.9")) = 1 ∧
      (evaluateLlmRules mutexRow).countP (fun v => pyEq v.explanation
        (.str ("Diagnoses " ++ "R73.03" ++ " and " ++ "E11.9" ++
          " rarely co-exist; clinical review recommended."))) = 1 :=
  ⟨by decide, by decide,
    (mutex_pair_single_violation (fun _ => Option.none) mutexRow "R73.03" "E11.9"
      (by decide) (by decide) (by decide)).1,
    (mutex_pair_single_violation (fun _ => Option.none) mutexRow "R73.03" "E11.9"
      (by decide) (by decide) (by decide)).2.1⟩

end RcmEngine

namespace RcmEngine

/-- A tenant configuration carrying exactly the two overrides the spec
evaluator consumes. -/
def cfgOf (thresh caps : String) : TenantConfig := fun k =>
  if k = "paid_amount_approval_threshold" then Option.some thresh
  else if k = "paid_amount_caps" then Option.some caps
  else Option.none

/-- A non-parsable threshold override falls back to the default constant. -/
theorem effectiveThreshold_default (thresh caps : String)
    (h : strToFloat? thresh = Option.none) :
    effectiveThreshold (cfgOf thresh caps) = PAID_AMOUNT_APPROVAL_THRESHOLD := by
  have hk : cfgOf thresh caps "paid_amount_approval_threshold" = Option.some thresh := by
    simp [cfgOf]
  simp only [effectiveThreshold, hk]
  split_ifs with h2
  · rw [h]
  · rfl

/-- An unparsable caps override disables the cap check silently. -/
theorem capsViolations_skip (thresh caps : String) (svc : String) (paid : Rat)
    (na : Bool) (h : jsonLoads caps = Option.none) :
    capsViolations (cfgOf thresh caps) svc paid na = [] := by
  have hk : cfgOf thresh caps "paid_amount_caps" = Option.some caps := by
    simp [cfgOf]
  simp only [capsViolations, hk]
  split_ifs with h2
  · rw [h]
  · rfl

/-- Without an override the default threshold applies. -/
theorem effectiveThreshold_empty :
    effectiveThreshold (fun _ => Option.none) = PAID_AMOUNT_APPROVAL_THRESHOLD := rfl

/-- Without a caps override there is no cap check. -/
theorem capsViolations_empty (svc : String) (paid : Rat) (na : Bool) :
    capsViolations (fun _ => Option.none) svc paid na = [] := rfl

/-- C6: malformed tenant overrides never change checks other than the one
they configure.  A non-numeric threshold override together with an
unparsable caps override makes `evaluate_static_rules_full` behave exactly
as with no overrides at all (default threshold, cap check skipped, every
other check's violations unchanged, and — the model being a total
function — nothing raises); moreover inside the cap scan a malformed
entry (non-dict, or a matching entry whose cap cannot be coerced) is
skipped without affecting the rest of the scan. -/
theorem malformed_config_ignored (row : ClaimRow) (thresh caps : String)
    (hthr : strToFloat? thresh = Option.none)
    (hcaps : jsonLoads caps = Option.none) :
    (evaluateStaticRulesFull (cfgOf thresh caps) row =
        evaluateStaticRulesFull (fun _ => Option.none) row) ∧
      (∀ (svc : String) (paid : Rat) (na : Bool) (entry : PyVal) (rest : List PyVal),
        (∀ kvs, entry ≠ PyVal.dict kvs) →
          capsScan svc paid na (entry :: rest) = capsScan svc paid na rest) ∧
      (∀ (svc : String) (paid : Rat) (na : Bool) (kvs : List (String × PyVal))
          (rest : List PyVal) (err : PyErr),
        pyFloatE (pyOr (dictGet kvs "cap") (.num 0)) = .error err →
          capsScan svc paid na (.dict kvs :: rest) = capsScan svc paid na rest) := by
  refine ⟨?_, ?_, ?_⟩
  · simp only [evaluateStaticRulesFull, effectiveThreshold_default thresh caps hthr,
      capsViolations_skip thresh caps _ _ _ hcaps, effectiveThreshold_empty,
      capsViolations_empty]
  · intro svc paid na entry rest hnd
    cases entry with
    | dict kvs => exact absurd rfl (hnd kvs)
    | none => rfl
    | bool x => rfl
    | num x => rfl
    | str x => rfl
    | list x => rfl
  · intro svc paid na kvs rest err herr
    simp only [capsScan]
    split_ifs with hm
    · rw [herr]
    · rfl

/-- C6 witness: the overrides `"abc"` and `"oops"` on a concrete claim. -/
theorem malformed_config_ignored_witness :
    strToFloat? "abc" = Option.none ∧ jsonLoads "oops" = Option.none ∧
      evaluateStaticRulesFull (cfgOf "abc" "oops") mutexRow =
        evaluateStaticRulesFull (fun _ => Option.none) mutexRow :=
  ⟨rfl, rfl, (malformed_config_ignored mutexRow "abc" "oops" rfl rfl).1⟩

end RcmEngine

namespace RcmEngine

/-- `tryCatch` with a handler that always returns purely never leaves the
success branch of the exception monad. -/
theorem exceptTryCatch_pure_handler_ok {α : Type} (x : Except PyErr α)
    (f : PyErr → α) :
    ∃ out, tryCatch x (fun e => pure (f e)) = Except.ok out := by
  cases x with
  | ok v => exact ⟨v, rfl⟩
  | error e => exact ⟨f e, rfl⟩

/-- C3: `evaluate_claim_llm` never raises — for every provider
configuration, API-key state, clock/throttle state, request outcome
(any status and body, or a transport failure/timeout) and claim, the
exception-monad model returns `ok` with a violation list. -/
theorem advisory_never_raises (provider : String) (apiKey : Option String)
    (now lastReq timeAfter : Rat) (outcome : HttpOutcome) (claim : Claim)
    (tech med : Option (List PyVal)) :
    ∃ out, evaluateClaimLlmE provider apiKey now lastReq timeAfter outcome
      claim tech med = Except.ok out := by
  unfold evaluateClaimLlmE
  by_cases h1 : ¬ (provider = "gemini" ∨ provider = "google")
  · rw [if_pos h1]
    exact ⟨_, rfl⟩
  · rw [if_neg h1]
    by_cases h2 : apiKey.getD "" = ""
    · rw [if_pos h2]
      exact ⟨_, rfl⟩
    · rw [if_neg h2]
      exact exceptTryCatch_pure_handler_ok _ _

/-- `tryCatch` around an already-pure computation. -/
theorem exceptTryCatch_pure {α : Type} (x : α) (h : PyErr → Except PyErr α) :
    tryCatch (pure x : Except PyErr α) h = pure x := rfl

/-- Bind after `pure` in the exception monad. -/
theorem except_pure_bind {α β : Type} (a : α) (f : α → Except PyErr β) :
    (pure a : Except PyErr α) >>= f = f a := rfl

/-- Bind after `ok` in the exception monad. -/
theorem except_ok_bind {α β : Type} (a : α) (f : α → Except PyErr β) :
    (Except.ok a : Except PyErr α) >>= f = f a := rfl

/-- C5: on a completed external call, the result is exactly the output of
the first fallback tier that yields a violation: the parsed model result
if non-empty, else the static-rule scan of the tenant rule sets if
non-empty, else the fixed heuristic checks — each empty tier cascading to
the next, and exactly one tier's output being returned. -/
theorem advisory_fallback_tiers (provider : String) (apiKey : Option String)
    (now lastReq timeAfter : Rat) (status : Nat) (body : String) (data : PyVal)
    (text : String) (claim : Claim) (tech med : Option (List PyVal))
    (hprov : provider = "gemini" ∨ provider = "google")
    (hkey : apiKey.getD "" ≠ "")
    (hthr : ¬ rSub now lastReq < MIN_INTERVAL)
    (h429 : status ≠ 429) (hok : status < 400)
    (hbody : jsonLoads body = Option.some data)
    (htext : extractGeminiText data = Except.ok text) :
    evaluateClaimLlmE provider apiKey now lastReq timeAfter (.response status body)
        claim tech med =
      Except.ok
        ((if (parseTextToSuggestions text).isEmpty = false then
            parseTextToSuggestions text
          else if (((tech.getD [] ++ med.getD []).map
              (evalOneLlmRule claim)).flatten).isEmpty = false then
            ((tech.getD [] ++ med.getD []).map (evalOneLlmRule claim)).flatten
          else heuristicSuggestions claim), now) := by
  unfold evaluateClaimLlmE
  rw [if_neg (not_not_intro hprov), if_neg hkey, if_neg hthr]
  dsimp only
  rw [if_neg h429, if_neg (not_le.mpr hok), hbody]
  dsimp only
  rw [except_pure_bind, htext, except_ok_bind]
  cases hp : (parseTextToSuggestions text).isEmpty with
  | true =>
      simp only [llmStaticRules, exceptTryCatch_pure]
      cases hs : (((tech.getD [] ++ med.getD []).map
          (evalOneLlmRule claim)).flatten).isEmpty <;>
        (simp [exceptTryCatch_pure]; rfl)
  | false =>
      (simp [exceptTryCatch_pure]; rfl)


/-- A concrete Gemini success body whose candidate text is the empty JSON
array. -/
def gemBody : String :=
  "\x7b\"candidates\":[\x7b\"content\":\x7b\"parts\":[\x7b\"text\":\"[]\"\x7d]\x7d\x7d]\x7d"

/-- The decoded form of `gemBody`. -/
def gemData : PyVal :=
  .dict [("candidates", .list [.dict [("content", .dict [("parts",
    .list [.dict [("text", .str "[]")]])])]])]

/-- C5 witness: a successful call whose parsed result is empty and whose
rule scan is empty resolves to the heuristic tier, on a concrete claim. -/
theorem advisory_fallback_tiers_witness :
    jsonLoads gemBody = Option.some gemData ∧
      extractGeminiText gemData = Except.ok "[]" ∧
      evaluateClaimLlmE "gemini" (Option.some "k") 10 0 11 (.response 200 gemBody)
          [("paid_amount_aed", PyVal.num 300)] Option.none Option.none =
        Except.ok (heuristicSuggestions [("paid_amount_aed", PyVal.num 300)], 10) :=
  ⟨rfl, rfl,
    (advisory_fallback_tiers "gemini" (Option.some "k") 10 0 11 200 gemBody gemData "[]"
        [("paid_amount_aed", PyVal.num 300)] Option.none Option.none
        (Or.inl rfl) (by decide) (by decide) (by decide) (by decide) rfl rfl).trans
      (by rfl)⟩

end RcmEngine

namespace RcmEngine


/-- The four verdict columns `update_claim_result` writes back. -/
def VERDICT_COLUMNS : List String :=
  ["status", "error_type", "error_explanation", "recommended_action"]

/-- Writing a verdict back changes no other column of the claim dict. -/
theorem rowGet_setVerdict (row : ClaimRow) (v : Verdict) (f : String)
    (hf : f ∉ VERDICT_COLUMNS) :
    claimGet (rowToClaim (setVerdict row v)) f = claimGet (rowToClaim row) f := by
  simp only [VERDICT_COLUMNS, List.mem_cons, List.not_mem_nil, or_false, not_or] at hf
  obtain ⟨h1, h2, h3, h4⟩ := hf
  simp only [claimGet, rowToClaim, setVerdict, List.lookup]
  repeat' split
  all_goals first | rfl | simp_all

/-- A rule not referencing a verdict column is unaffected by write-back. -/
theorem applyRule_setVerdict (r : Rule) (row : ClaimRow) (v : Verdict)
    (hf : r.field ∉ VERDICT_COLUMNS) :
    applyRule r (rowToClaim (setVerdict row v)) = applyRule r (rowToClaim row) := by
  unfold applyRule
  rw [rowGet_setVerdict row v r.field hf]

/-- The tenant-rule pass is unaffected by verdict write-back when no rule
references a verdict column. -/
theorem evaluateStaticRules_setVerdict (rules : List Rule) (row : ClaimRow)
    (v : Verdict) (hr : ∀ r ∈ rules, r.field ∉ VERDICT_COLUMNS) :
    evaluateStaticRules rules (rowToClaim (setVerdict row v)) =
      evaluateStaticRules rules (rowToClaim row) := by
  unfold evaluateStaticRules
  rw [List.filter_congr (fun r hrr => applyRule_setVerdict r row v (hr r hrr))]

/-- The per-claim verdict is stable under its own write-back when no rule
references a verdict column (only the tenant-rule pass reads arbitrary
columns; the fixed checks and heuristics read core fields only). -/
theorem claimVerdict_setVerdict (rules : List Rule) (cfg : TenantConfig)
    (row : ClaimRow) (v : Verdict) (hr : ∀ r ∈ rules, r.field ∉ VERDICT_COLUMNS) :
    claimVerdict rules cfg (setVerdict row v) = claimVerdict rules cfg row := by
  unfold claimVerdict claimErrors
  rw [evaluateStaticRules_setVerdict rules row v hr]
  rfl



/-- Metrics depend only on each result's verdict and paid amount. -/
theorem computeMetrics_congr (l : List ClaimRow) (f g : ClaimRow → ClaimRow × Verdict)
    (h2 : ∀ row, (f row).2 = (g row).2)
    (h1 : ∀ row, metricsPaid (f row).1 = metricsPaid (g row).1) :
    computeMetrics (l.map f) = computeMetrics (l.map g) := by
  unfold computeMetrics
  congr 1
  funext cat
  rw [List.filter_map, List.filter_map]
  dsimp only
  rw [List.foldl_map, List.foldl_map]
  have hp : (fun x => decide ((f x).2.error_type = cat)) =
      (fun x => decide ((g x).2.error_type = cat)) := by
    funext x
    rw [h2 x]
  have hf : (fun (t : Rat) (row : ClaimRow) => rAdd t (metricsPaid (f row).1)) =
      (fun (t : Rat) (row : ClaimRow) => rAdd t (metricsPaid (g row).1)) := by
    funext t row
    rw [h1 row]
  rw [List.length_map, List.length_map]
  rw [show (Function.comp (fun rv => decide (rv.2.error_type = cat)) f) =
      (fun x => decide ((f x).2.error_type = cat)) from rfl]
  rw [show (Function.comp (fun rv => decide (rv.2.error_type = cat)) g) =
      (fun x => decide ((g x).2.error_type = cat)) from rfl]
  rw [hp, hf]



/-- C8 (amended): metrics recomputation is idempotent provided no tenant
rule references a verdict column — running `validate_claims` twice on an
otherwise unchanged tenant yields identical per-category counts and
paid-amount totals, the second run's saved metrics replacing the first's. -/
theorem metrics_idempotent (s : TenantState)
    (hr : ∀ r ∈ s.rules, r.field ∉ VERDICT_COLUMNS) :
    (runValidate (runValidate s)).metrics = (runValidate s).metrics := by
  unfold runValidate
  dsimp only
  rw [List.map_map, List.map_map]
  exact computeMetrics_congr s.claims _ _
    (fun row => claimVerdict_setVerdict s.rules s.cfg row
      (claimVerdict s.rules s.cfg row) hr)
    (fun row => rfl)



/-- A bare claim row (all optional fields absent). -/
def c8Row : ClaimRow :=
  ⟨0, "t", Option.some "C1", Option.none, Option.none, Option.none, Option.none,
   Option.none, Option.none, Option.none, Option.none, Option.none, Option.none,
   Option.none, Option.none, Option.none, Option.none⟩

/-- A tenant rule that reads the `status` verdict column. -/
def c8Rule : Rule :=
  ⟨"r1", "status", "equals", .str "Not validated", .str "Technical error",
   .str "claim not yet adjudicated", .str "Run validation"⟩

/-- A tenant whose single rule reads the `status` column. -/
def c8State : TenantState :=
  ⟨[c8Row], [c8Rule], fun _ => Option.none, []⟩

/-- C8 counterexample: with a rule on the `status` column, the first run
writes `Not validated` back, the second run then sees the written status,
records no violation, and saves different metrics. -/
theorem metrics_idempotent_counterexample :
    (runValidate (runValidate c8State)).metrics ≠ (runValidate c8State).metrics := by
  decide

/-- The same tenant with a rule on `claim_id` instead. -/
def c8GoodState : TenantState :=
  ⟨[c8Row], [⟨"r1", "claim_id", "equals", .str "C1", .str "Technical error",
    .str "claim id mismatch", .str "Check claim id"⟩], fun _ => Option.none, []⟩

/-- C8 witness: a concrete tenant satisfying the amended hypothesis. -/
theorem metrics_idempotent_witness :
    (∀ r ∈ c8GoodState.rules, r.field ∉ VERDICT_COLUMNS) ∧
      (runValidate (runValidate c8GoodState)).metrics =
        (runValidate c8GoodState).metrics :=
  ⟨by decide, metrics_idempotent c8GoodState (by decide)⟩


end RcmEngine
